import Mathlib

/-!
Verification development for the differential-geometry core of the
coordinates subsystem (src/src/mesh/coordinates.cxx).

The shallow embedding below translates the source into Lean:
- `BoutReal` values that may hold the BoutNaN sentinel are modelled by `BVal`
  (a rational number or `nan`, with NaN-propagating arithmetic);
- `Field2D` data is a total function `Int → Int → BVal` (reads outside the
  local grid are harmless in the source because the underlying array is
  sized to the local grid; index arithmetic in the loops below never leaves
  it) together with a `CellLoc` location tag;
- the mesh / domain-decomposition collaborator is a record of the grid
  bounds, the boundary-region list and the branch-cut predicates;
- the differencing engine (`interp_to`) and the halo exchange
  (`communicate`) are external collaborators and are passed in as function
  parameters.
-/

/-- Cell location tag (CELL_CENTRE / CELL_XLOW / CELL_YLOW). -/
inductive CellLoc where
  | centre
  | xlow
  | ylow
deriving DecidableEq, Repr

/-- A BoutReal value: a rational number, or the BoutNaN sentinel.
Arithmetic propagates `nan`, mirroring IEEE NaN. -/
inductive BVal where
  | num (q : ℚ)
  | nan
deriving DecidableEq, Repr

namespace BVal

def add : BVal → BVal → BVal
  | num x, num y => num (x + y)
  | _, _ => nan

def sub : BVal → BVal → BVal
  | num x, num y => num (x - y)
  | _, _ => nan

def mul : BVal → BVal → BVal
  | num x, num y => num (x * y)
  | _, _ => nan

def div : BVal → BVal → BVal
  | num x, num y => num (x / y)
  | _, _ => nan

def neg : BVal → BVal
  | num x => num (-x)
  | nan => nan

instance : Add BVal := ⟨add⟩
instance : Sub BVal := ⟨sub⟩
instance : Mul BVal := ⟨mul⟩
instance : Div BVal := ⟨div⟩
instance : Neg BVal := ⟨neg⟩
instance (n : Nat) : OfNat BVal n := ⟨num n⟩

end BVal

/-- Field2D data: values indexed by the two in-surface grid indices. -/
def FData : Type := Int → Int → BVal

/-- A Field2D: data plus its location tag. -/
structure Fld where
  data : FData
  loc : CellLoc

/-- Pointwise update of field data at one grid index. -/
def setV (d : FData) (x y : Int) (v : BVal) : FData :=
  fun i j => if i = x ∧ j = y then v else d i j

/-- The inclusive integer range `[a, b]`, ascending (empty when `b < a`). -/
def intRange (a b : Int) : List Int :=
  (List.range (b + 1 - a).toNat).map (fun k => a + (k : Int))

/-- One boundary region, as produced by the mesh's boundary iterator:
outward normal `(bx, by)`, guard width, and the 1-D traversal of
boundary-adjacent indices. (`by` is a Lean keyword, hence `by_`.) -/
structure Boundary where
  bx : Int
  by_ : Int
  width : Nat
  pts : List (Int × Int)

/-- The mesh / domain-decomposition collaborator: local and global grid
sizes, interior index bounds, guard widths (`xstart` / `ystart` double as
the number of guard cells), boundary regions and branch-cut predicates. -/
structure Mesh where
  LocalNx : Int
  LocalNy : Int
  GlobalNx : Int
  GlobalNy : Int
  xstart : Int
  xend : Int
  ystart : Int
  yend : Int
  bndries : List Boundary
  branchCutDown : Int → Bool
  branchCutUp : Int → Bool

/-- `extrap_start` of interpolateAndExtrapolate (coordinates.cxx lines
48-52): 1 when the target staggered location's offset direction matches
the boundary normal, else 0. -/
def extrapStartOf (location : CellLoc) (b : Boundary) : Nat :=
  if location = .xlow ∧ b.bx > 0 then 1
  else if location = .ylow ∧ b.by_ > 0 then 1
  else 0

/-- The body of the boundary loop of interpolateAndExtrapolate for one
boundary point (coordinates.cxx lines 53-92): optionally set the missing
boundary-adjacent point from the source field `fdata` by the symmetric
4-point average, then either fail (staggered-grid configuration error),
extrapolate the guard layers by the cubic rule, or fall back to constant
extrapolation. -/
def extrapolateBndryPoint (m : Mesh) (b : Boundary) (fdata : FData)
    (extrapStart : Nat) (r : FData) (pt : Int × Int) : Except String FData :=
  let x := pt.1
  let y := pt.2
  let r :=
    if extrapStart > 0 then
      setV r x y ((9 * (fdata (x - b.bx) (y - b.by_) + fdata x y)
          - fdata (x - 2 * b.bx) (y - 2 * b.by_)
          - fdata (x + b.bx) (y + b.by_)) / 16)
    else r
  if (b.bx ≠ 0 ∧ m.GlobalNx - 2 * (b.width : Int) ≥ 3)
      ∨ (b.by_ ≠ 0 ∧ m.GlobalNy - 2 * (b.width : Int) ≥ 3) then
    if b.bx ≠ 0 ∧ m.LocalNx = 1 ∧ b.width = 1 then
      .error "Not enough points in the x-direction on this processor for extrapolation needed to use staggered grids"
    else if b.by_ ≠ 0 ∧ m.LocalNy = 1 ∧ b.width = 1 then
      .error "Not enough points in the y-direction on this processor for extrapolation needed to use staggered grids"
    else
      .ok ((List.range' extrapStart (b.width - extrapStart)).foldl
        (fun r i =>
          let xi := x + (i : Int) * b.bx
          let yi := y + (i : Int) * b.by_
          setV r xi yi (3 * r (xi - b.bx) (yi - b.by_)
            - 3 * r (xi - 2 * b.bx) (yi - 2 * b.by_)
            + r (xi - 3 * b.bx) (yi - 3 * b.by_))) r)
  else
    .ok ((List.range' extrapStart (b.width - extrapStart)).foldl
      (fun r i =>
        setV r (x + (i : Int) * b.bx) (y + (i : Int) * b.by_)
          (r (x - b.bx) (y - b.by_))) r)

/-- The full boundary loop of interpolateAndExtrapolate (coordinates.cxx
lines 47-93). -/
def boundaryPass (m : Mesh) (location : CellLoc) (fdata r : FData) :
    Except String FData :=
  m.bndries.foldlM (fun r b =>
    b.pts.foldlM (extrapolateBndryPoint m b fdata (extrapStartOf location b)) r) r

/-- The branch-cut re-extrapolation of interpolateAndExtrapolate
(coordinates.cxx lines 95-119): on columns with a branch cut, overwrite
the communicated guard cells by cubic extrapolation (and, at the upper
boundary of a CELL_YLOW field, first set the boundary point by the
symmetric 4-point average of the source field). -/
def branchCutPass (m : Mesh) (location : CellLoc) (fdata r : FData) : FData :=
  let firstjup := if location = .ylow then m.yend + 1 else m.yend
  (intRange m.xstart m.xend).foldl (fun r i =>
    let r :=
      if m.branchCutDown i then
        ((intRange 1 (m.ystart - 1)).reverse).foldl (fun r j =>
          setV r i j (3 * r i (j + 1) - 3 * r i (j + 2) + r i (j + 3))) r
      else r
    if m.branchCutUp i then
      let r :=
        if location = .ylow then
          setV r i m.yend ((9 * (fdata i (m.yend - 1) + fdata i m.yend)
            - fdata i (m.yend - 2) - fdata i (m.yend + 1)) / 16)
        else r
      (intRange firstjup (m.LocalNy - 1)).foldl (fun r j =>
        setV r i j (3 * r i (j - 1) - 3 * r i (j - 2) + r i (j - 3))) r
    else r) r

/-- The corner-guard-cell pass of interpolateAndExtrapolate
(coordinates.cxx lines 121-129): the four corner regions are set to the
BoutNaN sentinel. -/
def cornerPass (m : Mesh) (r : FData) : FData :=
  (intRange 0 (m.xstart - 1)).foldl (fun r i =>
    (intRange 0 (m.ystart - 1)).foldl (fun r j =>
      setV (setV (setV (setV r i j .nan)
          i (m.LocalNy - 1 - j) .nan)
          (m.LocalNx - 1 - i) j .nan)
          (m.LocalNx - 1 - i) (m.LocalNy - 1 - j) .nan) r) r

/-- interpolateAndExtrapolate (coordinates.cxx lines 27-132), value level.
`interpTo` is the differencing engine's interp_to and `comm` the halo
exchange, both external collaborators passed as parameters. The
`result.allocate()` call only makes the result's data unique (the aliasing
side is modelled separately by the store-level version below), so at value
level the pipeline is: interpolate, communicate, boundary extrapolation,
optional branch-cut re-extrapolation, corner NaNs. -/
def interpolateAndExtrapolate (m : Mesh) (interpTo : Fld → CellLoc → Fld)
    (comm : Fld → Fld) (f : Fld) (location : CellLoc)
    (extrapAtBranchCut : Bool) : Except String Fld := do
  let result := comm (interpTo f location)
  let rdata ← boundaryPass m location f.data result.data
  let rdata := if extrapAtBranchCut then branchCutPass m location f.data rdata
    else rdata
  let rdata := cornerPass m rdata
  .ok { data := rdata, loc := location }

/-- The branch-cut shift-angle correction applied to zShift after every
interpolation stage (getCoordinatesStaggered, coordinates.cxx lines
433-447; the same block appears in getCoordinates and
getCoordinatesXYCorner): on columns with a branch cut, subtract the
per-column shift angle in the lower guard rows and add it in the upper
guard rows. A missing ShiftAngle (empty vector) makes this a no-op. -/
def zShiftBranchCutCorrection (m : Mesh) (shiftAngle : Option (Int → ℚ))
    (z : FData) : FData :=
  match shiftAngle with
  | none => z
  | some sa =>
    (intRange 0 (m.LocalNx - 1)).foldl (fun z x =>
      let z :=
        if m.branchCutDown x then
          (intRange 0 (m.ystart - 1)).foldl
            (fun z y => setV z x y (z x y - BVal.num (sa x))) z
        else z
      if m.branchCutUp x then
        (intRange (m.yend + 1) (m.LocalNy - 1)).foldl
          (fun z y => setV z x y (z x y + BVal.num (sa x))) z
      else z) z

/-- The zShift path of the staggered-location builder
(getCoordinatesStaggered, coordinates.cxx lines 430-447): interpolate with
the branch-cut flag false, communicate, then apply the branch-cut
shift-angle correction. -/
def staggeredZShift (m : Mesh) (interpTo : Fld → CellLoc → Fld)
    (comm : Fld → Fld) (zShiftIn : Fld) (shiftAngle : Option (Int → ℚ))
    (loc : CellLoc) : Except String Fld := do
  let z ← interpolateAndExtrapolate m interpTo comm zShiftIn loc false
  let z := comm z
  .ok { data := zShiftBranchCutCorrection m shiftAngle z.data, loc := z.loc }

/-- interpXLOWToXYCorner (coordinates.cxx lines 134-207): interpolate an
x-staggered field to the XY corner, with the two-phase outer-x-boundary
splice through the scratch field temp_for_xguards, returning the result
tagged CELL_CENTRE. The leading check embeds
ASSERT1(xstart > 1 && ystart > 1) and the check that the input is at
CELL_XLOW. -/
def interpXLOWToXYCorner (m : Mesh) (interpTo : Fld → CellLoc → Fld)
    (comm : Fld → Fld) (f : Fld) (extrapAtBranchCut : Bool) :
    Except String Fld := do
  if ¬(m.xstart > 1 ∧ m.ystart > 1) then
    .error "ASSERT1 failed: 4-point stencils need xstart greater than 1 and ystart greater than 1"
  else if f.loc ≠ .xlow then
    .error "ASSERT1 failed: input to interpXLOWToXYCorner must be at CELL_XLOW"
  else do
    let tempData := m.bndries.foldl (fun t b =>
      if b.bx > 0 then
        let t := b.pts.foldl (fun t pt =>
          (intRange (m.xend - 1) (m.LocalNx - 1)).foldl (fun t i =>
            setV t (i - 1) pt.2 (f.data i pt.2)) t) t
        (intRange (m.xend - 2) m.xend).foldl (fun t i =>
          let t := ((intRange 0 (m.ystart - 1)).reverse).foldl (fun t j =>
            setV t i j (3 * t i (j + 1) - 3 * t i (j + 2) + t i (j + 3))) t
          (intRange (m.yend + 1) (m.LocalNy - 1)).foldl (fun t j =>
            setV t i j (3 * t i (j - 1) - 3 * t i (j - 2) + t i (j - 3))) t) t
      else t) (fun _ _ => BVal.num 0)
    let temp := comm { data := tempData, loc := .centre }
    let result : Fld := { data := f.data, loc := .centre }
    let result ← interpolateAndExtrapolate m interpTo comm result .ylow extrapAtBranchCut
    let temp ← interpolateAndExtrapolate m interpTo comm temp .ylow extrapAtBranchCut
    let rdata := m.bndries.foldl (fun r b =>
      if b.bx > 0 then
        b.pts.foldl (fun r pt =>
          (intRange (m.xend - 1) (m.LocalNx - 1)).foldl (fun r i =>
            setV r i pt.2 (temp.data (i - 1) pt.2)) r) r
      else r) result.data
    .ok { data := rdata, loc := .centre }

/-!  Store-level model of Field2D data ownership.

Field2D uses shared data blocks: `interp_to` may return a field aliasing
its input (when no interpolation is needed), and `allocate()` performs
copy-on-write so that a field's data becomes unique. The store maps block
references to data; two live fields alias iff they hold the same ref.
-/

/-- The data-block store: block contents by ref, plus the next fresh ref. -/
structure Store where
  data : Nat → FData
  next : Nat

/-- A Field2D as a reference into the store plus its location tag. -/
structure FldRef where
  ref : Nat
  loc : CellLoc

/-- Modelled from the spec: the differencing engine's interp_to, at store
level. It may return a field aliasing the input's data block when no
interpolation is needed (target equals the current location); otherwise it
allocates a fresh block holding the interpolated data. -/
def interpToRef (σ : Store) (interpFn : Fld → CellLoc → Fld) (r : FldRef)
    (target : CellLoc) : Store × FldRef :=
  if target = r.loc then (σ, r)
  else
    ({ data := fun k => if k = σ.next then
          (interpFn { data := σ.data r.ref, loc := r.loc } target).data
        else σ.data k,
       next := σ.next + 1 },
     { ref := σ.next, loc := target })

/-- Modelled from the spec: Field2D::allocate ensures the field's data is
unique. If the field aliases another live block (`aliasOf`), its data is
copied into a fresh block; otherwise nothing happens. -/
def allocateRef (σ : Store) (r : FldRef) (aliasOf : Nat) : Store × FldRef :=
  if r.ref = aliasOf then
    ({ data := fun k => if k = σ.next then σ.data r.ref else σ.data k,
       next := σ.next + 1 },
     { ref := σ.next, loc := r.loc })
  else (σ, r)

/-- Overwrite the store block at `k`. -/
def writeRef (σ : Store) (k : Nat) (d : FData) : Store :=
  { σ with data := fun i => if i = k then d else σ.data i }

/-- interpolateAndExtrapolate at store level (coordinates.cxx lines
27-132): interp_to (possibly aliasing `fr`), result.allocate()
(copy-on-write), then communication, boundary extrapolation, branch-cut
re-extrapolation and corner NaNs, all written to the result's block. The
final store is returned also on the error path. -/
def interpolateAndExtrapolateST (σ : Store) (m : Mesh)
    (interpFn : Fld → CellLoc → Fld) (commFn : Fld → Fld) (fr : FldRef)
    (location : CellLoc) (extrapAtBranchCut : Bool) :
    Store × Except String FldRef :=
  let s1 := interpToRef σ interpFn fr location
  let s2 := allocateRef s1.1 s1.2 fr.ref
  let σ2 := s2.1
  let r := s2.2
  let σ3 := writeRef σ2 r.ref (commFn { data := σ2.data r.ref, loc := location }).data
  match boundaryPass m location (σ3.data fr.ref) (σ3.data r.ref) with
  | .error e => (σ3, .error e)
  | .ok d1 =>
    let σ4 := writeRef σ3 r.ref d1
    let d2 := if extrapAtBranchCut then
        branchCutPass m location (σ4.data fr.ref) (σ4.data r.ref)
      else σ4.data r.ref
    let σ5 := writeRef σ4 r.ref d2
    let σ6 := writeRef σ5 r.ref (cornerPass m (σ5.data r.ref))
    (σ6, .ok { ref := r.ref, loc := location })

/-!  Metric / connection calculator.

The base-builder pipeline (getCoordinates → calcCovariant → jacobian →
geometry) works on NaN-free Field2D data, so this part of the embedding
uses plain rational-valued fields `FldQ`. Field arithmetic is pointwise
(the Pi instances); `q * f` scales a field by a rational.
-/

/-- Rational-valued Field2D data (no NaN), for the metric pipeline. -/
abbrev FldQ := Int → Int → ℚ

instance : HMul ℚ FldQ FldQ := ⟨fun q f i j => q * f i j⟩

/-- Modelled from the spec: the differencing engine's index-space first
x-derivative `indexDDX` (a configurable stencil; here the default
second-order central difference). -/
def indexDDXc (f : FldQ) : FldQ := fun i j => (f (i + 1) j - f (i - 1) j) / 2

/-- Modelled from the spec: the differencing engine's index-space first
y-derivative `indexDDY` (second-order central difference). -/
def indexDDYc (f : FldQ) : FldQ := fun i j => (f i (j + 1) - f i (j - 1)) / 2

/-- Coordinates::DDX on Field2D (coordinates.cxx lines 950-953): the
engine's index-space derivative divided by the grid spacing. -/
def cDDX (indexDDX : FldQ → FldQ) (dx : FldQ) (f : FldQ) : FldQ :=
  indexDDX f / dx

/-- Coordinates::DDY on Field2D (coordinates.cxx lines 955-958). -/
def cDDY (indexDDY : FldQ → FldQ) (dy : FldQ) (f : FldQ) : FldQ :=
  indexDDY f / dy

/-- Coordinates::DDZ on a Field2D (coordinates.cxx lines 960-967): a
Field2D resolves nothing in the periodic direction, so its z-derivative
is identically zero. -/
def cDDZ : FldQ → FldQ := fun _ => fun _ _ => 0

/-- The two metric representations held by a Coordinates object:
contravariant g^ij and covariant g_ij components. -/
structure MetricFields where
  g11 : FldQ
  g22 : FldQ
  g33 : FldQ
  g12 : FldQ
  g13 : FldQ
  g23 : FldQ
  g_11 : FldQ
  g_22 : FldQ
  g_33 : FldQ
  g_12 : FldQ
  g_13 : FldQ
  g_23 : FldQ

/-- The 18 stored connection coefficients. -/
structure ChristoffelTerms where
  G1_11 : FldQ
  G1_22 : FldQ
  G1_33 : FldQ
  G1_12 : FldQ
  G1_13 : FldQ
  G1_23 : FldQ
  G2_11 : FldQ
  G2_22 : FldQ
  G2_33 : FldQ
  G2_12 : FldQ
  G2_13 : FldQ
  G2_23 : FldQ
  G3_11 : FldQ
  G3_22 : FldQ
  G3_33 : FldQ
  G3_12 : FldQ
  G3_13 : FldQ
  G3_23 : FldQ

/-- The 18 Christoffel-symbol assignments of Coordinates::geometry
(coordinates.cxx lines 670-726), transcribed term for term — including
the cancelling pairs written in the source (e.g. `DDY(g_23) - DDY(g_23)`
in G1_23) and the `DDY(g23)` (contravariant, no underscore) term in
G2_22, exactly as the source has them. -/
def christoffel (indexDDX indexDDY : FldQ → FldQ) (dx dy : FldQ)
    (mf : MetricFields) : ChristoffelTerms :=
  let DX := cDDX indexDDX dx
  let DY := cDDY indexDDY dy
  let DZ := cDDZ
  { G1_11 := (1/2 : ℚ) * mf.g11 * DX mf.g_11
      + mf.g12 * (DX mf.g_12 - (1/2 : ℚ) * DY mf.g_11)
      + mf.g13 * (DX mf.g_13 - (1/2 : ℚ) * DZ mf.g_11)
    G1_22 := mf.g11 * (DY mf.g_12 - (1/2 : ℚ) * DX mf.g_22)
      + (1/2 : ℚ) * mf.g12 * DY mf.g_22
      + mf.g13 * (DY mf.g_23 - (1/2 : ℚ) * DZ mf.g_22)
    G1_33 := mf.g11 * (DZ mf.g_13 - (1/2 : ℚ) * DX mf.g_33)
      + mf.g12 * (DZ mf.g_23 - (1/2 : ℚ) * DY mf.g_33)
      + (1/2 : ℚ) * mf.g13 * DZ mf.g_33
    G1_12 := (1/2 : ℚ) * mf.g11 * DY mf.g_11
      + (1/2 : ℚ) * mf.g12 * DX mf.g_22
      + (1/2 : ℚ) * mf.g13 * (DY mf.g_13 + DX mf.g_23 - DZ mf.g_12)
    G1_13 := (1/2 : ℚ) * mf.g11 * DZ mf.g_11
      + (1/2 : ℚ) * mf.g12 * (DZ mf.g_12 + DX mf.g_23 - DY mf.g_13)
      + (1/2 : ℚ) * mf.g13 * DX mf.g_33
    G1_23 := (1/2 : ℚ) * mf.g11 * (DZ mf.g_12 + DY mf.g_13 - DX mf.g_23)
      + (1/2 : ℚ) * mf.g12 * (DZ mf.g_22 + DY mf.g_23 - DY mf.g_23)
      + (1/2 : ℚ) * mf.g13 * DY mf.g_33
    G2_11 := (1/2 : ℚ) * mf.g12 * DX mf.g_11
      + mf.g22 * (DX mf.g_12 - (1/2 : ℚ) * DY mf.g_11)
      + mf.g23 * (DX mf.g_13 - (1/2 : ℚ) * DZ mf.g_11)
    G2_22 := mf.g12 * (DY mf.g_12 - (1/2 : ℚ) * DX mf.g_22)
      + (1/2 : ℚ) * mf.g22 * DY mf.g_22
      + mf.g23 * (DY mf.g23 - (1/2 : ℚ) * DZ mf.g_22)
    G2_33 := mf.g12 * (DZ mf.g_13 - (1/2 : ℚ) * DX mf.g_33)
      + mf.g22 * (DZ mf.g_23 - (1/2 : ℚ) * DY mf.g_33)
      + (1/2 : ℚ) * mf.g23 * DZ mf.g_33
    G2_12 := (1/2 : ℚ) * mf.g12 * DY mf.g_11
      + (1/2 : ℚ) * mf.g22 * DX mf.g_22
      + (1/2 : ℚ) * mf.g23 * (DY mf.g_13 + DX mf.g_23 - DZ mf.g_12)
    G2_13 := (1/2 : ℚ) * mf.g12 * (DZ mf.g_11 + DX mf.g_13 - DX mf.g_13)
      + (1/2 : ℚ) * mf.g22 * (DZ mf.g_12 + DX mf.g_23 - DY mf.g_13)
      + (1/2 : ℚ) * mf.g23 * DX mf.g_33
    G2_23 := (1/2 : ℚ) * mf.g12 * (DZ mf.g_12 + DY mf.g_13 - DX mf.g_23)
      + (1/2 : ℚ) * mf.g22 * DZ mf.g_22
      + (1/2 : ℚ) * mf.g23 * DY mf.g_33
    G3_11 := (1/2 : ℚ) * mf.g13 * DX mf.g_11
      + mf.g23 * (DX mf.g_12 - (1/2 : ℚ) * DY mf.g_11)
      + mf.g33 * (DX mf.g_13 - (1/2 : ℚ) * DZ mf.g_11)
    G3_22 := mf.g13 * (DY mf.g_12 - (1/2 : ℚ) * DX mf.g_22)
      + (1/2 : ℚ) * mf.g23 * DY mf.g_22
      + mf.g33 * (DY mf.g_23 - (1/2 : ℚ) * DZ mf.g_22)
    G3_33 := mf.g13 * (DZ mf.g_13 - (1/2 : ℚ) * DX mf.g_33)
      + mf.g23 * (DZ mf.g_23 - (1/2 : ℚ) * DY mf.g_33)
      + (1/2 : ℚ) * mf.g33 * DZ mf.g_33
    G3_12 := (1/2 : ℚ) * mf.g13 * DY mf.g_11
      + (1/2 : ℚ) * mf.g23 * DX mf.g_22
      + (1/2 : ℚ) * mf.g33 * (DY mf.g_13 + DX mf.g_23 - DZ mf.g_12)
    G3_13 := (1/2 : ℚ) * mf.g13 * DZ mf.g_11
      + (1/2 : ℚ) * mf.g23 * (DZ mf.g_12 + DX mf.g_23 - DY mf.g_13)
      + (1/2 : ℚ) * mf.g33 * DX mf.g_33
    G3_23 := (1/2 : ℚ) * mf.g13 * (DZ mf.g_12 + DY mf.g_13 - DX mf.g_23)
      + (1/2 : ℚ) * mf.g23 * DZ mf.g_22
      + (1/2 : ℚ) * mf.g33 * DY mf.g_33 }

/-- The 3 contracted curvature-correction terms of Coordinates::geometry
(coordinates.cxx lines 728-730); `J` is the Jacobian member computed
earlier by Coordinates::jacobian. -/
structure ContractedTerms where
  G1 : FldQ
  G2 : FldQ
  G3 : FldQ

def contractedG (indexDDX indexDDY : FldQ → FldQ) (dx dy : FldQ) (J : FldQ)
    (mf : MetricFields) : ContractedTerms :=
  let DX := cDDX indexDDX dx
  let DY := cDDY indexDDY dy
  let DZ := cDDZ
  { G1 := (DX (J * mf.g11) + DY (J * mf.g12) + DZ (J * mf.g13)) / J
    G2 := (DX (J * mf.g12) + DY (J * mf.g22) + DZ (J * mf.g23)) / J
    G3 := (DX (J * mf.g13) + DY (J * mf.g23) + DZ (J * mf.g33)) / J }

/-- The whole local index box of the mesh (all points, guard cells
included). -/
def gridBox (m : Mesh) : Finset (Int × Int) :=
  Finset.Icc 0 (m.LocalNx - 1) ×ˢ Finset.Icc 0 (m.LocalNy - 1)

/-- The non-boundary region RGN_NOBNDRY: the interior index box. -/
def interiorBox (m : Mesh) : Finset (Int × Int) :=
  Finset.Icc m.xstart m.xend ×ˢ Finset.Icc m.ystart m.yend

/-- The outputs of Coordinates::geometry. -/
structure GeometryResult where
  ch : ChristoffelTerms
  con : ContractedTerms
  d1_dx : FldQ
  d1_dy : FldQ

/-- Coordinates::geometry (coordinates.cxx lines 631-788): precondition
checks (spacing floors of 1e-8 and metric-positivity; in this exact
rational model every value is finite, so the source's finiteness checks
are vacuously satisfied and not repeated), the 18 Christoffel symbols,
the 3 contracted terms, the batched halo exchange of all 21 fields
(`commQ`), and the non-uniform-grid corrections d1_dx, d1_dy (from the
optionally supplied d2x / d2y). -/
def geometryRun (m : Mesh) (indexDDX indexDDY : FldQ → FldQ)
    (commQ : FldQ → FldQ) (dx dy : FldQ) (dz : ℚ) (J : FldQ)
    (mf : MetricFields) (d2x d2y : Option FldQ) :
    Except String GeometryResult :=
  if ∃ p ∈ gridBox m, |dx p.1 p.2| < (1 : ℚ) / 100000000 then
    .error "dx magnitude less than 1e-8"
  else if ∃ p ∈ gridBox m, |dy p.1 p.2| < (1 : ℚ) / 100000000 then
    .error "dy magnitude less than 1e-8"
  else if |dz| < (1 : ℚ) / 100000000 then
    .error "dz magnitude less than 1e-8"
  else if ∃ p ∈ gridBox m,
      mf.g11 p.1 p.2 ≤ 0 ∨ mf.g22 p.1 p.2 ≤ 0 ∨ mf.g33 p.1 p.2 ≤ 0 then
    .error "Diagonal metrics are negative"
  else if ∃ p ∈ gridBox m,
      mf.g_11 p.1 p.2 ≤ 0 ∨ mf.g_22 p.1 p.2 ≤ 0 ∨ mf.g_33 p.1 p.2 ≤ 0 then
    .error "Diagonal g_ij metrics are negative"
  else
    let ch := christoffel indexDDX indexDDY dx dy mf
    let con := contractedG indexDDX indexDDY dx dy J mf
    let ch : ChristoffelTerms :=
      { G1_11 := commQ ch.G1_11, G1_22 := commQ ch.G1_22
        G1_33 := commQ ch.G1_33, G1_12 := commQ ch.G1_12
        G1_13 := commQ ch.G1_13, G1_23 := commQ ch.G1_23
        G2_11 := commQ ch.G2_11, G2_22 := commQ ch.G2_22
        G2_33 := commQ ch.G2_33, G2_12 := commQ ch.G2_12
        G2_13 := commQ ch.G2_13, G2_23 := commQ ch.G2_23
        G3_11 := commQ ch.G3_11, G3_22 := commQ ch.G3_22
        G3_33 := commQ ch.G3_33, G3_12 := commQ ch.G3_12
        G3_13 := commQ ch.G3_13, G3_23 := commQ ch.G3_23 }
    let con : ContractedTerms :=
      { G1 := commQ con.G1, G2 := commQ con.G2, G3 := commQ con.G3 }
    let d1_dx := match d2x with
      | none => indexDDX (1 / dx)
      | some d2xf => -d2xf / (dx * dx)
    let d1_dy := match d2y with
      | none => indexDDY (1 / dy)
      | some d2yf => -d2yf / (dy * dy)
    .ok { ch := ch, con := con, d1_dx := d1_dx, d1_dy := d1_dy }

/-- The standard closed-form second-kind Christoffel symbol Γ²_22 as the
spec states it (every partial derivative taken of a covariant component):
Γ²_22 = g¹²(∂₂g_12 − ½∂₁g_22) + ½g²²∂₂g_22 + g²³(∂₂g_23 − ½∂₃g_22).
This is the spec-side formula to compare against the source's G2_22. -/
def standardG2_22 (indexDDX indexDDY : FldQ → FldQ) (dx dy : FldQ)
    (mf : MetricFields) : FldQ :=
  let DX := cDDX indexDDX dx
  let DY := cDDY indexDDY dy
  let DZ := cDDZ
  mf.g12 * (DY mf.g_12 - (1/2 : ℚ) * DX mf.g_22)
    + (1/2 : ℚ) * mf.g22 * DY mf.g_22
    + mf.g23 * (DY mf.g_23 - (1/2 : ℚ) * DZ mf.g_22)

/-!  Jacobian / normalization. -/

/-- Real-valued field data (J and Bxy involve square roots). -/
abbrev FldR := Int → Int → ℝ

/-- The contravariant-metric determinant of Coordinates::jacobian
(coordinates.cxx lines 920-921):
det = g11 g22 g33 + 2 g12 g13 g23 − g11 g23² − g22 g13² − g33 g12². -/
def jacDet (mf : MetricFields) : FldQ :=
  mf.g11 * mf.g22 * mf.g33 + (2 : ℚ) * mf.g12 * mf.g13 * mf.g23
    - mf.g11 * mf.g23 * mf.g23 - mf.g22 * mf.g13 * mf.g13
    - mf.g33 * mf.g12 * mf.g12

/-- J is non-finite at a point exactly when the determinant vanishes
there: in IEEE arithmetic 1/sqrt(0) = +inf (det < 0 is thrown before J is
ever formed). -/
def JNonFinite (mf : MetricFields) (p : Int × Int) : Prop :=
  jacDet mf p.1 p.2 = 0

structure JacobianResult where
  J : FldR
  Bxy : FldR

/-- Coordinates::jacobian (coordinates.cxx lines 916-943). Checks, in
source order: det < 0 anywhere is fatal; J = 1/sqrt(det) must be finite
in the non-boundary region (in this real-number idealization J is
non-finite exactly where det = 0, see `JNonFinite`); |J| < 1e-10 anywhere
is fatal (at an IEEE-infinite J, i.e. det = 0, this floor check is false,
hence the det ≠ 0 conjunct); g_22 < 0 anywhere is fatal. On success
J = 1/sqrt(det) and Bxy = sqrt(g_22)/J. -/
noncomputable def jacobianRun (m : Mesh) (mf : MetricFields) :
    Except String JacobianResult :=
  open Classical in
  if ∃ p ∈ gridBox m, jacDet mf p.1 p.2 < 0 then
    .error "The determinant of g^ij is somewhere less than 0.0"
  else if ∃ p ∈ interiorBox m, JNonFinite mf p then
    .error "Jacobian not finite everywhere"
  else if ∃ p ∈ gridBox m, ¬JNonFinite mf p
      ∧ |1 / Real.sqrt ((jacDet mf p.1 p.2 : ℚ) : ℝ)| < (1 : ℝ) / 10000000000 then
    .error "Jacobian becomes very small"
  else if ∃ p ∈ gridBox m, mf.g_22 p.1 p.2 < 0 then
    .error "g_22 is somewhere less than 0.0"
  else
    .ok { J := fun i j => 1 / Real.sqrt ((jacDet mf i j : ℚ) : ℝ)
          Bxy := fun i j => Real.sqrt ((mf.g_22 i j : ℚ) : ℝ)
            / (1 / Real.sqrt ((jacDet mf i j : ℚ) : ℝ)) }

/-!  Metric Inversion (calcCovariant / calcContravariant).

The per-point 3×3 symmetric inversion. The matrix inversion routine
invert3x3 lives in the utilities outside the given sources, so it is
modelled from the spec (direct adjugate/determinant inversion, failing
when singular). The grid loop of calcCovariant / calcContravariant maps
the inversion over every grid point; the post-check residuals are
observational logging only and play no role in control flow.
-/

/-- A symmetric 3×3 tensor at one grid point: the 6 independent
components. -/
structure Sym3 where
  a11 : ℚ
  a22 : ℚ
  a33 : ℚ
  a12 : ℚ
  a13 : ℚ
  a23 : ℚ
deriving DecidableEq, Repr

/-- Determinant of the symmetric 3×3 matrix. -/
def det3 (g : Sym3) : ℚ :=
  g.a11 * g.a22 * g.a33 + 2 * g.a12 * g.a13 * g.a23
    - g.a11 * g.a23 ^ 2 - g.a22 * g.a13 ^ 2 - g.a33 * g.a12 ^ 2

/-- The adjugate-over-determinant inverse of the symmetric 3×3 matrix. -/
def inv3 (g : Sym3) : Sym3 :=
  { a11 := (g.a22 * g.a33 - g.a23 ^ 2) / det3 g
    a22 := (g.a11 * g.a33 - g.a13 ^ 2) / det3 g
    a33 := (g.a11 * g.a22 - g.a12 ^ 2) / det3 g
    a12 := (g.a13 * g.a23 - g.a12 * g.a33) / det3 g
    a13 := (g.a12 * g.a23 - g.a13 * g.a22) / det3 g
    a23 := (g.a12 * g.a13 - g.a11 * g.a23) / det3 g }

/-- Modelled from the spec: invert3x3 — direct 3×3 adjugate/determinant
inversion of a symmetric matrix, failing (singular) when the determinant
is zero. -/
def invert3x3 (g : Sym3) : Option Sym3 :=
  if det3 g = 0 then none else some (inv3 g)

/-- The per-point inversion loop shared by calcCovariant and
calcContravariant: invert at every grid point in order, aborting the
whole calculation at the first singular point (the source's early
`return 1`). -/
def invertAll : List Sym3 → Option (List Sym3)
  | [] => some []
  | g :: t =>
    match invert3x3 g, invertAll t with
    | some gi, some ti => some (gi :: ti)
    | _, _ => none

/-- Coordinates::calcCovariant (coordinates.cxx lines 790-855): invert
the contravariant tensor at every grid point (the grid is flattened to a
list of points); the whole calculation fails if the matrix is singular at
any point. The inversion-residual maxima are logged diagnostics only. -/
def calcCovariant (l : List Sym3) : Option (List Sym3) :=
  invertAll l

/-- Coordinates::calcContravariant (coordinates.cxx lines 857-914): the
same pointwise inversion, from covariant back to contravariant. -/
def calcContravariant (l : List Sym3) : Option (List Sym3) :=
  invertAll l

/-- The quadratic form of the symmetric tensor. -/
def quadForm (g : Sym3) (x y z : ℚ) : ℚ :=
  g.a11 * x ^ 2 + g.a22 * y ^ 2 + g.a33 * z ^ 2
    + 2 * g.a12 * x * y + 2 * g.a13 * x * z + 2 * g.a23 * y * z

/-- Positive definiteness of the symmetric tensor: the quadratic form is
positive on every nonzero vector. -/
def Sym3.PosDef (g : Sym3) : Prop :=
  ∀ x y z : ℚ, ¬(x = 0 ∧ y = 0 ∧ z = 0) → 0 < quadForm g x y z

/-!  Differential operators (the ones the claims exercise). -/

/-- The slice of a Geometry object that Grad_par / Div_par read: the
normalization Bxy, the covariant g_22, and the location tag. -/
structure GeomOp where
  Bxy : FldR
  g_22 : FldR
  dy : FldR
  loc : CellLoc

/-- Coordinates::Grad_par on Field2D (coordinates.cxx lines 974-980):
DDY(var)/sqrt(g_22), where DDY is the engine's index-space derivative
divided by dy. -/
noncomputable def Grad_par (c : GeomOp) (indexDDY : FldR → FldR)
    (f : FldR) : FldR :=
  fun i j => (indexDDY f i j / c.dy i j) / Real.sqrt (c.g_22 i j)

/-- Coordinates::Div_par on Field2D (coordinates.cxx lines 1010-1020):
Bxy * Grad_par(f / Bxy_floc), where Bxy_floc is the Bxy of the
Coordinates object at f's own location (`f.getCoordinates()->Bxy`),
resolved through the per-mesh registry `reg` from f's location tag. -/
noncomputable def Div_par (c : GeomOp) (reg : CellLoc → GeomOp)
    (indexDDY : FldR → FldR) (f : FldR) (floc : CellLoc) : FldR :=
  let Bxy_floc := (reg floc).Bxy
  fun i j => c.Bxy i j * Grad_par c indexDDY (fun a b => f a b / Bxy_floc a b) i j

/-!  Concrete scenarios. -/

/-- Success test for an Except value. -/
def isOkE {α : Type _} : Except String α → Bool
  | .ok _ => true
  | .error _ => false

/-- The constant-one rational field (used for dx = dy = 1). -/
def qone : FldQ := fun _ _ => 1

/-- Shear profile for the C1 failing input: a(y) = 1/4 at y = 2,
1/2 at y = 3, 0 elsewhere. -/
def aProf : Int → ℚ := fun y => if y = 2 then 1/4 else if y = 3 then 1/2 else 0

/-- The C1 failing input: contravariant metric
[[1,0,0],[0,1,a(y)],[0,a(y),1]] together with its exact covariant
inverse [[1,0,0],[0,1/(1-a²),-a/(1-a²)],[0,-a/(1-a²),1/(1-a²)]] — both
representations finite with positive diagonals, exactly mutually inverse
at every point. -/
def mfC1 : MetricFields :=
  { g11 := fun _ _ => 1
    g22 := fun _ _ => 1
    g33 := fun _ _ => 1
    g12 := fun _ _ => 0
    g13 := fun _ _ => 0
    g23 := fun _ y => aProf y
    g_11 := fun _ _ => 1
    g_22 := fun _ y => 1 / (1 - aProf y ^ 2)
    g_33 := fun _ y => 1 / (1 - aProf y ^ 2)
    g_12 := fun _ _ => 0
    g_13 := fun _ _ => 0
    g_23 := fun _ y => -aProf y / (1 - aProf y ^ 2) }

/-- A 3×3-interior, 1-guard serial mesh with no boundary regions and no
branch cuts (an interior processor). -/
def meshC1 : Mesh :=
  { LocalNx := 5, LocalNy := 5, GlobalNx := 5, GlobalNy := 5
    xstart := 1, xend := 3, ystart := 1, yend := 3
    bndries := []
    branchCutDown := fun _ => false
    branchCutUp := fun _ => false }

/-- The identity (flat-space) metric: g^ij = δ^ij = g_ij. -/
def mfId : MetricFields :=
  { g11 := fun _ _ => 1, g22 := fun _ _ => 1, g33 := fun _ _ => 1
    g12 := fun _ _ => 0, g13 := fun _ _ => 0, g23 := fun _ _ => 0
    g_11 := fun _ _ => 1, g_22 := fun _ _ => 1, g_33 := fun _ _ => 1
    g_12 := fun _ _ => 0, g_13 := fun _ _ => 0, g_23 := fun _ _ => 0 }

/-- The 3×3-interior, 2-guard-cell serial 2D grid of the end-to-end
flat-space scenario. -/
def mesh7 : Mesh :=
  { LocalNx := 7, LocalNy := 7, GlobalNx := 7, GlobalNy := 7
    xstart := 2, xend := 4, ystart := 2, yend := 4
    bndries := []
    branchCutDown := fun _ => false
    branchCutUp := fun _ => false }

/-!  Pointwise application helpers for field arithmetic. -/

theorem qmul_apply (q : ℚ) (f : FldQ) (i j : Int) : (q * f) i j = q * f i j := rfl

theorem aProf_sq_lt_one (y : Int) : aProf y ^ 2 < 1 := by
  unfold aProf
  split_ifs <;> norm_num

theorem geometryRun_meshC1_checks_dx :
    ¬∃ p ∈ gridBox meshC1, |qone p.1 p.2| < (1 : ℚ) / 100000000 := by
  rintro ⟨p, -, h⟩
  simp [qone] at h
  norm_num at h

theorem geometryRun_meshC1_checks_diag :
    ¬∃ p ∈ gridBox meshC1,
      mfC1.g11 p.1 p.2 ≤ 0 ∨ mfC1.g22 p.1 p.2 ≤ 0 ∨ mfC1.g33 p.1 p.2 ≤ 0 := by
  rintro ⟨p, -, h⟩
  simp only [mfC1] at h
  rcases h with h | h | h <;> norm_num at h

theorem geometryRun_meshC1_checks_codiag :
    ¬∃ p ∈ gridBox meshC1,
      mfC1.g_11 p.1 p.2 ≤ 0 ∨ mfC1.g_22 p.1 p.2 ≤ 0 ∨ mfC1.g_33 p.1 p.2 ≤ 0 := by
  rintro ⟨p, -, h⟩
  have ha : aProf p.2 ^ 2 < 1 := aProf_sq_lt_one p.2
  have hpos : (0 : ℚ) < 1 - aProf p.2 ^ 2 := by linarith
  have hq : (0 : ℚ) < 1 / (1 - aProf p.2 ^ 2) := one_div_pos.mpr hpos
  simp only [mfC1] at h
  rcases h with h | h | h <;> linarith

/-- C1: the connection-coefficient formulas are NOT all built from
partial derivatives of covariant components: on a metric with both
representations finite, exactly mutually inverse, and diagonals positive,
the geometry calculation succeeds but the stored G2_22 evaluates to 7/48
at the point (2,2), while the standard second-kind Christoffel symbol
Γ²_22 (every derivative taken of a covariant component, as the claim
states) evaluates to 0 there: the source's G2_22 takes DDY of the
contravariant g23 where Γ²_22 needs DDY of the covariant g_23. -/
theorem C1_G2_22_uses_contravariant_derivative :
    ∀ J : FldQ, ∃ res : GeometryResult,
      geometryRun meshC1 indexDDXc indexDDYc id qone qone 1 J mfC1 none none
        = .ok res
      ∧ res.ch.G2_22 2 2 = 7 / 48
      ∧ standardG2_22 indexDDXc indexDDYc qone qone mfC1 2 2 = 0
      ∧ (7 / 48 : ℚ) ≠ 0 := by
  intro J
  unfold geometryRun
  rw [if_neg geometryRun_meshC1_checks_dx, if_neg geometryRun_meshC1_checks_dx,
    if_neg (by norm_num : ¬|(1 : ℚ)| < (1 : ℚ) / 100000000),
    if_neg geometryRun_meshC1_checks_diag, if_neg geometryRun_meshC1_checks_codiag]
  refine ⟨_, rfl, ?_, ?_, by norm_num⟩
  · simp [christoffel, cDDY, cDDX, cDDZ, indexDDYc, indexDDXc, qone, mfC1,
      aProf, qmul_apply]
    norm_num
  · simp [standardG2_22, cDDY, cDDX, cDDZ, indexDDYc, indexDDXc, qone, mfC1,
      aProf, qmul_apply]
    norm_num

theorem jacDet_mfId (i j : Int) : jacDet mfId i j = 1 := by
  simp [jacDet, mfId, qmul_apply]

theorem jac_mesh7_det_nonneg :
    ¬∃ p ∈ gridBox mesh7, jacDet mfId p.1 p.2 < 0 := by
  rintro ⟨p, -, h⟩
  rw [jacDet_mfId] at h
  norm_num at h

theorem jac_mesh7_finite :
    ¬∃ p ∈ interiorBox mesh7, JNonFinite mfId p := by
  rintro ⟨p, -, h⟩
  rw [JNonFinite, jacDet_mfId] at h
  norm_num at h

theorem jac_mesh7_floor :
    ¬∃ p ∈ gridBox mesh7, ¬JNonFinite mfId p
      ∧ |(fun i j : Int => 1 / Real.sqrt ((jacDet mfId i j : ℚ) : ℝ)) p.1 p.2|
        < (1 : ℝ) / 10000000000 := by
  rintro ⟨p, -, -, h⟩
  simp only [jacDet_mfId] at h
  norm_num [Real.sqrt_one] at h

theorem jac_mesh7_g22 :
    ¬∃ p ∈ gridBox mesh7, mfId.g_22 p.1 p.2 < 0 := by
  rintro ⟨p, -, h⟩
  simp only [mfId] at h
  norm_num at h

theorem geo_mesh7_dx :
    ¬∃ p ∈ gridBox mesh7, |qone p.1 p.2| < (1 : ℚ) / 100000000 := by
  rintro ⟨p, -, h⟩
  simp [qone] at h
  norm_num at h

theorem geo_mesh7_diag :
    ¬∃ p ∈ gridBox mesh7,
      mfId.g11 p.1 p.2 ≤ 0 ∨ mfId.g22 p.1 p.2 ≤ 0 ∨ mfId.g33 p.1 p.2 ≤ 0 := by
  rintro ⟨p, -, h⟩
  simp only [mfId] at h
  rcases h with h | h | h <;> norm_num at h

theorem geo_mesh7_codiag :
    ¬∃ p ∈ gridBox mesh7,
      mfId.g_11 p.1 p.2 ≤ 0 ∨ mfId.g_22 p.1 p.2 ≤ 0 ∨ mfId.g_33 p.1 p.2 ≤ 0 := by
  rintro ⟨p, -, h⟩
  simp only [mfId] at h
  rcases h with h | h | h <;> norm_num at h

/-- C8: on the flat-space identity metric over the 3×3-interior,
2-guard-cell serial 2D grid with dx = dy = dz = 1, the Jacobian
construction succeeds with J = 1 and Bxy = 1 everywhere, and the
geometry construction succeeds with all 18 Christoffel symbols and all 3
contracted connection terms equal to zero everywhere. -/
theorem C8_flat_metric_geometry :
    ∃ jr : JacobianResult, jacobianRun mesh7 mfId = .ok jr
      ∧ (∀ i j : Int, jr.J i j = 1)
      ∧ (∀ i j : Int, jr.Bxy i j = 1)
      ∧ ∃ res : GeometryResult,
        geometryRun mesh7 indexDDXc indexDDYc id qone qone 1 qone mfId
          none none = .ok res
        ∧ ∀ i j : Int,
            res.ch.G1_11 i j = 0 ∧ res.ch.G1_22 i j = 0 ∧ res.ch.G1_33 i j = 0
          ∧ res.ch.G1_12 i j = 0 ∧ res.ch.G1_13 i j = 0 ∧ res.ch.G1_23 i j = 0
          ∧ res.ch.G2_11 i j = 0 ∧ res.ch.G2_22 i j = 0 ∧ res.ch.G2_33 i j = 0
          ∧ res.ch.G2_12 i j = 0 ∧ res.ch.G2_13 i j = 0 ∧ res.ch.G2_23 i j = 0
          ∧ res.ch.G3_11 i j = 0 ∧ res.ch.G3_22 i j = 0 ∧ res.ch.G3_33 i j = 0
          ∧ res.ch.G3_12 i j = 0 ∧ res.ch.G3_13 i j = 0 ∧ res.ch.G3_23 i j = 0
          ∧ res.con.G1 i j = 0 ∧ res.con.G2 i j = 0 ∧ res.con.G3 i j = 0 := by
  unfold jacobianRun
  rw [if_neg jac_mesh7_det_nonneg, if_neg jac_mesh7_finite,
    if_neg jac_mesh7_floor, if_neg jac_mesh7_g22]
  refine ⟨_, rfl, ?_, ?_, ?_⟩
  · intro i j
    show 1 / Real.sqrt ((jacDet mfId i j : ℚ) : ℝ) = 1
    rw [jacDet_mfId]
    simp [Real.sqrt_one]
  · intro i j
    show Real.sqrt ((mfId.g_22 i j : ℚ) : ℝ)
        / (1 / Real.sqrt ((jacDet mfId i j : ℚ) : ℝ)) = 1
    rw [jacDet_mfId]
    simp only [mfId]
    norm_num [Real.sqrt_one]
  · unfold geometryRun
    rw [if_neg geo_mesh7_dx, if_neg geo_mesh7_dx,
      if_neg (by norm_num : ¬|(1 : ℚ)| < (1 : ℚ) / 100000000),
      if_neg geo_mesh7_diag, if_neg geo_mesh7_codiag]
    refine ⟨_, rfl, ?_⟩
    intro i j
    simp [christoffel, contractedG, cDDX, cDDY, cDDZ, indexDDXc, indexDDYc,
      qone, mfId, qmul_apply]

/-- C4: Coordinates::jacobian computes det pointwise and fails exactly
when det < 0 at some point, or J = 1/sqrt(det) is non-finite in the
non-boundary region, or |J| < 1e-10 at a (finite-J) point, or g_22 < 0 at
some point; on success it returns J = 1/sqrt(det) and Bxy = sqrt(g_22)/J,
and on the identity metric it returns J = 1 everywhere. -/
theorem C4_jacobian_spec :
    (∀ (m : Mesh) (mf : MetricFields),
      isOkE (jacobianRun m mf) = true ↔
        ¬((∃ p ∈ gridBox m, jacDet mf p.1 p.2 < 0)
          ∨ (∃ p ∈ interiorBox m, JNonFinite mf p)
          ∨ (∃ p ∈ gridBox m, ¬JNonFinite mf p
              ∧ |1 / Real.sqrt ((jacDet mf p.1 p.2 : ℚ) : ℝ)|
                < (1 : ℝ) / 10000000000)
          ∨ (∃ p ∈ gridBox m, mf.g_22 p.1 p.2 < 0)))
    ∧ (∀ (m : Mesh) (mf : MetricFields) (jr : JacobianResult),
        jacobianRun m mf = .ok jr →
          (∀ i j : Int, jr.J i j = 1 / Real.sqrt ((jacDet mf i j : ℚ) : ℝ))
          ∧ (∀ i j : Int,
              jr.Bxy i j = Real.sqrt ((mf.g_22 i j : ℚ) : ℝ) / jr.J i j))
    ∧ (∃ jr : JacobianResult,
        jacobianRun mesh7 mfId = .ok jr ∧ ∀ i j : Int, jr.J i j = 1) := by
  refine ⟨?_, ?_, ?_⟩
  · intro m mf
    unfold jacobianRun
    split_ifs with h1 h2 h3 h4
    · exact iff_of_false (by simp [isOkE]) (fun hn => hn (Or.inl h1))
    · exact iff_of_false (by simp [isOkE]) (fun hn => hn (Or.inr (Or.inl h2)))
    · exact iff_of_false (by simp [isOkE])
        (fun hn => hn (Or.inr (Or.inr (Or.inl h3))))
    · exact iff_of_false (by simp [isOkE])
        (fun hn => hn (Or.inr (Or.inr (Or.inr h4))))
    · exact iff_of_true rfl (by rintro (h | h | h | h) <;> contradiction)
  · intro m mf jr h
    unfold jacobianRun at h
    split_ifs at h
    rw [Except.ok.injEq] at h
    subst h
    exact ⟨fun i j => rfl, fun i j => rfl⟩
  · unfold jacobianRun
    rw [if_neg jac_mesh7_det_nonneg, if_neg jac_mesh7_finite,
      if_neg jac_mesh7_floor, if_neg jac_mesh7_g22]
    refine ⟨_, rfl, fun i j => ?_⟩
    show 1 / Real.sqrt ((jacDet mfId i j : ℚ) : ℝ) = 1
    rw [jacDet_mfId]
    simp [Real.sqrt_one]

/-!  Algebra for the metric-inversion round trip. -/

/-- The symmetric tensor as a Mathlib 3×3 matrix. -/
def toM (g : Sym3) : Matrix (Fin 3) (Fin 3) ℚ :=
  !![g.a11, g.a12, g.a13; g.a12, g.a22, g.a23; g.a13, g.a23, g.a33]

theorem det_toM (g : Sym3) : (toM g).det = det3 g := by
  simp [toM, Matrix.det_fin_three, det3]
  ring

theorem toM_inv3 (g : Sym3) : toM (inv3 g) = (toM g)⁻¹ := by
  have hd : (!![g.a11, g.a12, g.a13; g.a12, g.a22, g.a23; g.a13, g.a23, g.a33]
      : Matrix (Fin 3) (Fin 3) ℚ).det = det3 g := det_toM g
  rw [Matrix.inv_def]
  ext i j
  fin_cases i <;> fin_cases j <;>
    simp [toM, inv3, Matrix.adjugate_fin_three, hd, Ring.inverse_eq_inv'] <;>
    ring

theorem Sym3.PosDef.a11_pos {g : Sym3} (h : g.PosDef) : 0 < g.a11 := by
  have := h 1 0 0 (by norm_num)
  simpa [quadForm] using this

theorem Sym3.PosDef.minor2_pos {g : Sym3} (h : g.PosDef) :
    0 < g.a11 * g.a22 - g.a12 ^ 2 := by
  have h11 := h.a11_pos
  have hv := h (-g.a12) g.a11 0 (by
    rintro ⟨-, h2, -⟩
    exact absurd h2 (ne_of_gt h11))
  have hq : quadForm g (-g.a12) g.a11 0
      = g.a11 * (g.a11 * g.a22 - g.a12 ^ 2) := by
    simp only [quadForm]
    ring
  rw [hq] at hv
  nlinarith

/-- A positive-definite symmetric tensor has positive determinant (the
quadratic form at the third adjugate column equals det·minor2). -/
theorem Sym3.PosDef.det3_pos {g : Sym3} (h : g.PosDef) : 0 < det3 g := by
  have hm2 := h.minor2_pos
  have hv := h (g.a12 * g.a23 - g.a13 * g.a22) (g.a12 * g.a13 - g.a11 * g.a23)
    (g.a11 * g.a22 - g.a12 ^ 2) (by
      rintro ⟨-, -, h3⟩
      exact absurd h3 (ne_of_gt hm2))
  have hq : quadForm g (g.a12 * g.a23 - g.a13 * g.a22)
      (g.a12 * g.a13 - g.a11 * g.a23) (g.a11 * g.a22 - g.a12 ^ 2)
      = det3 g * (g.a11 * g.a22 - g.a12 ^ 2) := by
    simp only [quadForm, det3]
    ring
  rw [hq] at hv
  nlinarith

theorem det3_inv3_eq {g : Sym3} :
    det3 (inv3 g) = (det3 g)⁻¹ := by
  rw [← det_toM, toM_inv3 g, Matrix.det_nonsing_inv, det_toM, Ring.inverse_eq_inv]

theorem toM_injective {g₁ g₂ : Sym3} (h : toM g₁ = toM g₂) : g₁ = g₂ := by
  have e : ∀ i j, toM g₁ i j = toM g₂ i j := fun i j => by rw [h]
  obtain ⟨b11, b22, b33, b12, b13, b23⟩ := g₁
  obtain ⟨c11, c22, c33, c12, c13, c23⟩ := g₂
  have e00 := e 0 0
  have e11 := e 1 1
  have e22 := e 2 2
  have e01 := e 0 1
  have e02 := e 0 2
  have e12 := e 1 2
  simp [toM] at e00 e11 e22 e01 e02 e12
  simp_all

/-- Applying the adjugate/determinant inversion twice returns the
original tensor exactly (in exact arithmetic). -/
theorem inv3_inv3 {g : Sym3} (h : det3 g ≠ 0) : inv3 (inv3 g) = g := by
  have h2 : det3 (inv3 g) ≠ 0 := by
    rw [det3_inv3_eq]
    exact inv_ne_zero h
  apply toM_injective
  rw [toM_inv3, toM_inv3]
  exact Matrix.nonsing_inv_nonsing_inv _
    (by rw [det_toM]; exact isUnit_iff_ne_zero.mpr h)

theorem invertAll_of_det {l : List Sym3} (h : ∀ g ∈ l, det3 g ≠ 0) :
    invertAll l = some (l.map inv3) := by
  induction l with
  | nil => rfl
  | cons g t ih =>
    have hg : det3 g ≠ 0 := h g (List.mem_cons_self g t)
    have ht := ih (fun x hx => h x (List.mem_cons_of_mem g hx))
    simp [invertAll, invert3x3, if_neg hg, ht]

theorem invertAll_inv3 {l : List Sym3} (h : ∀ g ∈ l, det3 g ≠ 0) :
    invertAll (l.map inv3) = some l := by
  induction l with
  | nil => rfl
  | cons g t ih =>
    have hg : det3 g ≠ 0 := h g (List.mem_cons_self g t)
    have hg2 : det3 (inv3 g) ≠ 0 := by
      rw [det3_inv3_eq]
      exact inv_ne_zero hg
    have ht := ih (fun x hx => h x (List.mem_cons_of_mem g hx))
    simp [invertAll, invert3x3, if_neg hg2, ht, inv3_inv3 hg]

/-- C6: for every symmetric positive-definite contravariant metric
tensor field (a list of per-point symmetric tensors), calcCovariant
followed by calcContravariant reproduces the original six contravariant
components exactly at every grid point (exact arithmetic, hence within
any floating-point tolerance), and neither call reports a singular
matrix (both return some, never the singular-failure none). -/
theorem C6_metric_inversion_roundtrip (l : List Sym3)
    (h : ∀ g ∈ l, g.PosDef) :
    ∃ lcov : List Sym3, calcCovariant l = some lcov
      ∧ calcContravariant lcov = some l := by
  have hd : ∀ g ∈ l, det3 g ≠ 0 := fun g hg => ne_of_gt (h g hg).det3_pos
  exact ⟨l.map inv3, invertAll_of_det hd, invertAll_inv3 hd⟩

/-- The identity tensor, a concrete positive-definite input. -/
def sym3Id : Sym3 := { a11 := 1, a22 := 1, a33 := 1, a12 := 0, a13 := 0, a23 := 0 }

theorem sym3Id_posDef : sym3Id.PosDef := by
  intro x y z hne
  have hor : x ≠ 0 ∨ y ≠ 0 ∨ z ≠ 0 := by tauto
  simp only [quadForm, sym3Id]
  rcases hor with hx | hy | hz
  · nlinarith [sq_nonneg y, sq_nonneg z,
      lt_of_le_of_ne (sq_nonneg x) (Ne.symm (pow_ne_zero 2 hx))]
  · nlinarith [sq_nonneg x, sq_nonneg z,
      lt_of_le_of_ne (sq_nonneg y) (Ne.symm (pow_ne_zero 2 hy))]
  · nlinarith [sq_nonneg x, sq_nonneg y,
      lt_of_le_of_ne (sq_nonneg z) (Ne.symm (pow_ne_zero 2 hz))]

theorem sym3Id_mem_posDef : ∀ g ∈ [sym3Id], g.PosDef := by
  intro g hg
  rw [List.mem_singleton] at hg
  subst hg
  exact sym3Id_posDef

/-- Witness for C6: the singleton identity-tensor grid satisfies the
positive-definiteness hypothesis and the round trip holds on it. -/
theorem C6_metric_inversion_roundtrip_witness :
    (∀ g ∈ [sym3Id], g.PosDef)
    ∧ ∃ lcov : List Sym3, calcCovariant [sym3Id] = some lcov
      ∧ calcContravariant lcov = some [sym3Id] :=
  ⟨sym3Id_mem_posDef, C6_metric_inversion_roundtrip [sym3Id] sym3Id_mem_posDef⟩

/-!  Concrete operator scenario: the operator's own Geometry at
CELL_CENTRE has Bxy = 2 while the registry's CELL_XLOW Geometry has
Bxy = 3; g_22 = 1 and dy = 1 everywhere. -/

noncomputable def geomCentre : GeomOp :=
  { Bxy := fun _ _ => 2, g_22 := fun _ _ => 1, dy := fun _ _ => 1, loc := .centre }

noncomputable def geomXlow : GeomOp :=
  { Bxy := fun _ _ => 3, g_22 := fun _ _ => 1, dy := fun _ _ => 1, loc := .xlow }

/-- The per-mesh Coordinates registry (mesh->getCoordinates(loc)). -/
noncomputable def regEx : CellLoc → GeomOp := fun l =>
  match l with
  | .xlow => geomXlow
  | _ => geomCentre

/-- Modelled from the spec: the engine's index-space y-derivative on
real fields (second-order central difference). -/
noncomputable def indexDDYr : FldR → FldR := fun f i j => (f i (j + 1) - f i (j - 1)) / 2

/-- A field linear in y, staggered at CELL_XLOW in the scenario. -/
noncomputable def fLin : FldR := fun _ j => (j : ℝ)

/-- C9: Div_par(f) = Bxy · Grad_par(f / Bxy_floc) where Bxy_floc is the
Bxy of the Geometry registered at f's own location tag — and this is not
the operator's own Bxy: on the concrete scenario (operator at centre with
Bxy = 2, f at x-low whose Geometry has Bxy = 3, f linear in y), Div_par
gives 2/3 while the same formula with the operator's own Bxy as divisor
would give 1. -/
theorem C9_div_par_uses_argument_location :
    (∀ (c : GeomOp) (reg : CellLoc → GeomOp) (indexDDY : FldR → FldR)
        (f : FldR) (floc : CellLoc) (i j : Int),
      Div_par c reg indexDDY f floc i j
        = c.Bxy i j
          * Grad_par c indexDDY (fun a b => f a b / (reg floc).Bxy a b) i j)
    ∧ Div_par geomCentre regEx indexDDYr fLin .xlow 0 0 = 2 / 3
    ∧ geomCentre.Bxy 0 0
        * Grad_par geomCentre indexDDYr
            (fun a b => fLin a b / geomCentre.Bxy a b) 0 0 = 1
    ∧ (2 / 3 : ℝ) ≠ 1 := by
  refine ⟨fun c reg iD f floc i j => rfl, ?_, ?_, by norm_num⟩
  · simp [Div_par, Grad_par, geomCentre, geomXlow, regEx, indexDDYr, fLin,
      Real.sqrt_one]
    norm_num
  · simp [Grad_par, geomCentre, indexDDYr, fLin, Real.sqrt_one]
    norm_num

/-- C10: interpolateAndExtrapolate never modifies its input field. At
store level, whatever the mesh, the engine, the halo exchange, the target
location and the branch-cut flag, and even when interp_to returns an
alias of the input, the input's data block is identical before and after
the call — the allocate() call copies an aliased block before
communication, boundary extrapolation, branch-cut overwrites and
corner-NaN writes, all of which target the result's block only. -/
theorem C10_interpolateAndExtrapolate_preserves_input
    (σ : Store) (m : Mesh) (interpFn : Fld → CellLoc → Fld)
    (commFn : Fld → Fld) (fr : FldRef) (location : CellLoc)
    (flag : Bool) (h : fr.ref < σ.next) :
    (interpolateAndExtrapolateST σ m interpFn commFn fr location flag).1.data fr.ref
      = σ.data fr.ref := by
  have hne : fr.ref ≠ σ.next := Nat.ne_of_lt h
  unfold interpolateAndExtrapolateST
  by_cases hloc : location = fr.loc
  · simp only [interpToRef, if_pos hloc, allocateRef, if_pos rfl]
    split <;> simp [writeRef, if_neg hne, hne]
  · simp only [interpToRef, if_neg hloc, allocateRef,
      if_neg (Ne.symm hne)]
    split <;> simp [writeRef, if_neg hne, hne]

/-- A concrete one-block store holding a zero field. -/
def store0 : Store := { data := fun _ => fun _ _ => BVal.num 0, next := 1 }

/-- A live field referencing block 0 at CELL_CENTRE. -/
def fr0 : FldRef := { ref := 0, loc := .centre }

/-- Witness for C10: on the concrete store, the input block is unchanged
(here interpolation to CELL_XLOW via an engine that returns its input,
i.e. the aliasing case). -/
theorem C10_interpolateAndExtrapolate_preserves_input_witness :
    fr0.ref < store0.next
    ∧ (interpolateAndExtrapolateST store0 meshC1 (fun f _ => f) id fr0
        .xlow false).1.data fr0.ref = store0.data fr0.ref :=
  ⟨by decide,
    C10_interpolateAndExtrapolate_preserves_input store0 meshC1 (fun f _ => f)
      id fr0 .xlow false (by decide)⟩

/-!  Concrete differencing engine and meshes for the interpolation
claims. -/

/-- Modelled from the spec: the differencing engine's interp_to — the
default symmetric 4-point half-cell interpolation stencil
(9(a+b) − c − d)/16 towards CELL_XLOW or CELL_YLOW, identity otherwise.
The engine always tags its output with the requested location. -/
def interp4pt (f : Fld) (target : CellLoc) : Fld :=
  if f.loc = .centre ∧ target = .xlow then
    { data := fun x y => (9 * (f.data (x - 1) y + f.data x y)
        - f.data (x - 2) y - f.data (x + 1) y) / 16, loc := target }
  else if f.loc = .centre ∧ target = .ylow then
    { data := fun x y => (9 * (f.data x (y - 1) + f.data x y)
        - f.data x (y - 2) - f.data x (y + 1)) / 16, loc := target }
  else { data := f.data, loc := target }

/-- A serial mesh with a single interior point in x (xend = xstart = 2)
and four interior points in y, guard width 2 in both directions, no
boundary regions (an interior processor) and no branch cuts. -/
def meshC3 : Mesh :=
  { LocalNx := 5, LocalNy := 8, GlobalNx := 5, GlobalNy := 8
    xstart := 2, xend := 2, ystart := 2, yend := 5
    bndries := [], branchCutDown := fun _ => false, branchCutUp := fun _ => false }

/-- A concrete CELL_XLOW field on that mesh. -/
def fC3 : Fld := { data := fun x y => BVal.num ((x + 2 * y : Int) : ℚ), loc := .xlow }

/-- Counterexample for C3: the corner-location builder does NOT fail on a
mesh with fewer than 2 interior points in an in-surface direction — on a
mesh with a single interior x point (but guard width 2 in both
directions) interpXLOWToXYCorner succeeds, because the source's ASSERT1
checks the guard widths (xstart > 1 and ystart > 1), not the interior
point counts. -/
theorem C3_corner_builder_counterexample :
    meshC3.xend - meshC3.xstart + 1 < 2
    ∧ isOkE (interpXLOWToXYCorner meshC3 interp4pt id fC3 false) = true := by
  constructor
  · decide
  · decide

/-- C3 amended: the corner-location builder fails with a fatal
precondition (assertion) error exactly on the guard widths — whenever the
mesh has guard width at most 1 in x or in y (xstart ≤ 1 or ystart ≤ 1),
regardless of the field, the engine, the halo exchange or the branch-cut
flag; interior point counts are not part of the precondition. -/
theorem C3_corner_builder_guard_width_precondition
    (m : Mesh) (interpTo : Fld → CellLoc → Fld) (comm : Fld → Fld)
    (f : Fld) (flag : Bool) (h : m.xstart ≤ 1 ∨ m.ystart ≤ 1) :
    interpXLOWToXYCorner m interpTo comm f flag
      = .error "ASSERT1 failed: 4-point stencils need xstart greater than 1 and ystart greater than 1" := by
  have hc : ¬(m.xstart > 1 ∧ m.ystart > 1) := by
    rintro ⟨h1, h2⟩
    rcases h with h | h <;> omega
  unfold interpXLOWToXYCorner
  rw [if_pos hc]

/-- Witness for the amended C3 theorem: a concrete mesh with guard width
1 in x makes the builder fail. -/
theorem C3_corner_builder_guard_width_precondition_witness :
    (meshC1.xstart ≤ 1 ∨ meshC1.ystart ≤ 1)
    ∧ interpXLOWToXYCorner meshC1 interp4pt id fC3 false
      = .error "ASSERT1 failed: 4-point stencils need xstart greater than 1 and ystart greater than 1" :=
  ⟨Or.inl (by decide),
    C3_corner_builder_guard_width_precondition meshC1 interp4pt id fC3 false
      (Or.inl (by decide))⟩

/-!  Pointwise evaluation lemmas for BVal arithmetic. -/

theorem BVal.num_add (x y : ℚ) : BVal.num x + BVal.num y = BVal.num (x + y) := rfl
theorem BVal.num_sub (x y : ℚ) : BVal.num x - BVal.num y = BVal.num (x - y) := rfl
theorem BVal.num_mul (x y : ℚ) : BVal.num x * BVal.num y = BVal.num (x * y) := rfl
theorem BVal.num_div (x y : ℚ) : BVal.num x / BVal.num y = BVal.num (x / y) := rfl
theorem BVal.ofNat_eq (n : Nat) : (OfNat.ofNat n : BVal) = BVal.num n := rfl

/-!  Scenario meshes for the extrapolation-fallback claim. -/

/-- A processor with only 2 interior x points after removing guard width
(LocalNx = 4, width 1), but sitting in a global grid with
GlobalNx − 2·width = 8 ≥ 3; one outer-x boundary point at (3, 1). -/
def meshC5 : Mesh :=
  { LocalNx := 4, LocalNy := 4, GlobalNx := 10, GlobalNy := 4
    xstart := 1, xend := 2, ystart := 1, yend := 2
    bndries := [{ bx := 1, by_ := 0, width := 1, pts := [(3, 1)] }]
    branchCutDown := fun _ => false, branchCutUp := fun _ => false }

/-- The same processor in a small global grid: GlobalNx − 2·width = 2 < 3. -/
def meshC5c : Mesh :=
  { LocalNx := 4, LocalNy := 4, GlobalNx := 4, GlobalNy := 4
    xstart := 1, xend := 2, ystart := 1, yend := 2
    bndries := [{ bx := 1, by_ := 0, width := 1, pts := [(3, 1)] }]
    branchCutDown := fun _ => false, branchCutUp := fun _ => false }

/-- A degenerate processor: LocalNx = 1 with boundary width 1 inside a
global grid where the cubic branch applies (GlobalNx − 2 = 8 ≥ 3). -/
def meshC5b : Mesh :=
  { LocalNx := 1, LocalNy := 4, GlobalNx := 10, GlobalNy := 4
    xstart := 0, xend := 0, ystart := 1, yend := 2
    bndries := [{ bx := 1, by_ := 0, width := 1, pts := [(0, 1)] }]
    branchCutDown := fun _ => false, branchCutUp := fun _ => false }

/-- The field x² at cell centre. -/
def fC5 : Fld := { data := fun x _ => BVal.num ((x * x : Int) : ℚ), loc := .centre }

/-- Counterexample for C5: on a processor with fewer than 3 interior
points after removing guard width (LocalNx − 2·width = 2 < 3) the guard
cell is NOT filled by constant extrapolation: because the global grid has
GlobalNx − 2·width = 8 ≥ 3 the source takes the cubic branch, giving
3·4 − 3·1 + 0 = 9 on the field x², not the repeated last interior value
4 — the fallback condition is on the global grid size, not the
processor's. -/
theorem C5_global_not_local_fallback_counterexample :
    meshC5.LocalNx - 2 * 1 < 3
    ∧ ∃ r : Fld,
      interpolateAndExtrapolate meshC5 interp4pt id fC5 .centre false = .ok r
      ∧ r.data 3 1 = BVal.num 9
      ∧ fC5.data 2 1 = BVal.num 4
      ∧ BVal.num 9 ≠ BVal.num (4 : ℚ) := by
  refine ⟨by decide, _, rfl, ?_, ?_, ?_⟩
  · show (3 : BVal) * fC5.data 2 1 - 3 * fC5.data 1 1 + fC5.data 0 1 = BVal.num 9
    simp only [fC5, BVal.ofNat_eq, BVal.num_mul, BVal.num_sub, BVal.num_add,
      BVal.num.injEq]
    norm_num
  · norm_num [fC5]
  · simp only [ne_eq, BVal.num.injEq]
    norm_num

/-- C5 amended: the constant-extrapolation fallback is taken exactly when
the GLOBAL grid direction has fewer than 3 points after removing twice
the boundary width (then every guard layer repeats the last value, for
every input field), and the fatal not-enough-points error is raised when
the cubic branch applies globally but the processor's local direction
size is 1 with boundary width 1. -/
theorem C5_constant_fallback_and_fatal_error :
    (∀ d : FData, ∃ r : Fld,
      interpolateAndExtrapolate meshC5c interp4pt id
        { data := d, loc := .centre } .centre false = .ok r
      ∧ r.data 3 1 = d 2 1)
    ∧ (∀ d : FData,
      interpolateAndExtrapolate meshC5b interp4pt id
        { data := d, loc := .centre } .centre false
        = .error "Not enough points in the x-direction on this processor for extrapolation needed to use staggered grids") :=
  ⟨fun _ => ⟨_, rfl, rfl⟩, fun _ => rfl⟩

/-- A serial mesh with an outer-x boundary of width 3 traversing the
single boundary-adjacent point (7, 2); 4 interior x points, guard width
3, so the cubic branch applies (GlobalNx − 2·3 = 4 ≥ 3). -/
def meshC7 : Mesh :=
  { LocalNx := 10, LocalNy := 5, GlobalNx := 10, GlobalNy := 5
    xstart := 3, xend := 6, ystart := 1, yend := 3
    bndries := [{ bx := 1, by_ := 0, width := 3, pts := [(7, 2)] }]
    branchCutDown := fun _ => false, branchCutUp := fun _ => false }

/-- C7: at a true domain boundary whose normal matches the staggered
target's offset direction (outer x boundary, CELL_XLOW target), for every
source field, every differencing engine and every halo exchange, the
single missing boundary-adjacent point (7,2) is set to the symmetric
4-point average (9(a+b) − c − d)/16 of the SOURCE field, and each
remaining guard layer n satisfies the cubic rule
result[n] = 3·result[n−1] − 3·result[n−2] + result[n−3] over the
already-known values nearest the interior. -/
theorem C7_boundary_average_then_cubic_layers
    (f : Fld) (interpTo : Fld → CellLoc → Fld) (comm : Fld → Fld) :
    ∃ r : Fld,
      interpolateAndExtrapolate meshC7 interpTo comm f .xlow false = .ok r
      ∧ r.data 7 2 = (9 * (f.data 6 2 + f.data 7 2)
          - f.data 5 2 - f.data 8 2) / 16
      ∧ r.data 8 2 = 3 * r.data 7 2 - 3 * r.data 6 2 + r.data 5 2
      ∧ r.data 9 2 = 3 * r.data 8 2 - 3 * r.data 7 2 + r.data 6 2 :=
  ⟨_, rfl, rfl, rfl, rfl⟩

/-- The staggered-builder zShift handling as the claim describes it:
interpolated WITHOUT boundary extrapolation, guard cells fixed only by
the halo exchange and the branch-cut shift-angle correction. This is the
spec-side definition, to be compared with `staggeredZShift` from the
source. -/
def staggeredZShiftNoExtrap (m : Mesh) (interpTo : Fld → CellLoc → Fld)
    (comm : Fld → Fld) (zShiftIn : Fld) (shiftAngle : Option (Int → ℚ))
    (loc : CellLoc) : Fld :=
  let z := comm (interpTo zShiftIn loc)
  { data := zShiftBranchCutCorrection m shiftAngle z.data, loc := loc }

/-- The zShift source field x³ at cell centre (cubic, so the 4-point
interpolation and the 3-point cubic extrapolation genuinely differ). -/
def zC2 : Fld := { data := fun x _ => BVal.num ((x * x * x : Int) : ℚ), loc := .centre }

/-- Counterexample for C2: on a serial mesh with an outer-x domain
boundary (no branch cut, identity halo exchange), the staggered builder's
zShift guard cell (8,2) holds the cubic-extrapolated value 3327/8 — NOT
the value 3375/8 that interpolation plus communication (and the no-op
shift-angle correction) alone would leave there. zShift's domain-boundary
guard cells ARE extrapolated; only the branch-cut flag is false. -/
theorem C2_zShift_is_boundary_extrapolated_counterexample :
    ∃ z : Fld,
      staggeredZShift meshC7 interp4pt id zC2 none .xlow = .ok z
      ∧ z.data 8 2 = BVal.num (3327 / 8)
      ∧ (staggeredZShiftNoExtrap meshC7 interp4pt id zC2 none .xlow).data 8 2
        = BVal.num (3375 / 8)
      ∧ BVal.num ((3327 : ℚ) / 8) ≠ BVal.num (3375 / 8) := by
  refine ⟨_, rfl, ?_, ?_, ?_⟩
  · show (3 : BVal) * ((9 * (zC2.data 6 2 + zC2.data 7 2)
          - zC2.data 5 2 - zC2.data 8 2) / 16)
        - 3 * ((9 * (zC2.data 5 2 + zC2.data 6 2)
          - zC2.data 4 2 - zC2.data 7 2) / 16)
        + (9 * (zC2.data 4 2 + zC2.data 5 2)
          - zC2.data 3 2 - zC2.data 6 2) / 16 = BVal.num (3327 / 8)
    simp only [zC2, BVal.ofNat_eq, BVal.num_mul, BVal.num_sub, BVal.num_add,
      BVal.num_div, BVal.num.injEq]
    norm_num
  · show (9 * (zC2.data 7 2 + zC2.data 8 2)
        - zC2.data 6 2 - zC2.data 9 2) / 16 = BVal.num (3375 / 8)
    simp only [zC2, BVal.ofNat_eq, BVal.num_mul, BVal.num_sub, BVal.num_add,
      BVal.num_div, BVal.num.injEq]
    norm_num
  · simp only [ne_eq, BVal.num.injEq]
    norm_num

/-- C2 amended: in the staggered-location builder, zShift is interpolated
with interpolateAndExtrapolate exactly like the other fields — its
domain-boundary guard cells are set by the boundary 4-point average and
the cubic extrapolation — with only the branch-cut re-extrapolation flag
false; afterwards it is re-communicated and branch-cut guard cells are
corrected with the shift angle. Proved for every source zShift field on
the outer-x-boundary mesh. -/
theorem C2_zShift_guard_cells_extrapolated :
    ∀ d : FData, ∃ z : Fld,
      staggeredZShift meshC7 interp4pt id { data := d, loc := .centre }
        none .xlow = .ok z
      ∧ z.data 7 2 = (9 * (d 6 2 + d 7 2) - d 5 2 - d 8 2) / 16
      ∧ z.data 8 2 = 3 * z.data 7 2 - 3 * z.data 6 2 + z.data 5 2
      ∧ z.data 9 2 = 3 * z.data 8 2 - 3 * z.data 7 2 + z.data 6 2 :=
  fun _ => ⟨_, rfl, rfl, rfl, rfl⟩
